import Mathlib

/-!
Formal model of the per-frame facial metric computation of the
X-Ray Face AI application.  The `onResults` callback (the only original
decision logic of the repository) is embedded over the reals:

* a MediaPipe landmark is a pair of normalized coordinates (`Landmark`);
* the `multiFaceLandmarks[0]` sequence is a `List Landmark`, and JS array
  indexing `landmarks[i]` (which yields `undefined` out of range) is
  `List.getElem?`;
* `Math.sqrt`, `Math.abs`, `Math.min`, `Math.max`, `Math.floor` become
  `Real.sqrt`, `|·|`, `min`, `max`, `Int.floor`;
* the three observable outcomes of one callback invocation are modelled by
  `Outcome`: the React state is replaced by fresh stats (`updated`), the
  guard fails and the state is kept (`noFace`), or a JavaScript `TypeError`
  is raised by reading a property of `undefined` (`jsError`).
-/

/-- One facial landmark in normalized image coordinates.  The engine only
ever reads the `x` and `y` fields. -/
structure Landmark where
  x : ℝ
  y : ℝ

/-- The `stats` record produced by `setStats`.  `Math.floor` yields
integer values, so the three numeric fields are integers; `status` and
`emotion` are the literal strings the source assigns. -/
structure Stats where
  perfection : ℤ
  symmetry : ℤ
  status : String
  emotion : String
  smileLevel : ℤ
deriving DecidableEq

/-- The initial React state: `useState({...})` at the top of the component. -/
def initialStats : Stats :=
  { perfection := 0
    symmetry := 0
    status := "Analyzing..."
    emotion := "Calculating..."
    smileLevel := 0 }

/-- `smileValue` of the source:
`Math.min(100, Math.max(0, (mouthWidth * 1.5 - mouthHeight) * 200))` with
`mouthWidth = Math.sqrt((rM.x-lM.x)^2 + (rM.y-lM.y)^2)` and
`mouthHeight = Math.sqrt((bL.y-tL.y)^2)`. -/
noncomputable def smileValue (leftMouth rightMouth topLip bottomLip : Landmark) : ℝ :=
  let mouthWidth := Real.sqrt ((rightMouth.x - leftMouth.x) ^ 2 + (rightMouth.y - leftMouth.y) ^ 2)
  let mouthHeight := Real.sqrt ((bottomLip.y - topLip.y) ^ 2)
  min 100 (max 0 ((mouthWidth * 1.5 - mouthHeight) * 200))

/-- `symmetryScore` of the source:
`Math.max(0, 100 - Math.abs((center.x - leftEye.x) - (rightEye.x - center.x)) * 500)`. -/
noncomputable def symmetryScore (leftEye rightEye center : Landmark) : ℝ :=
  max 0 (100 - |(center.x - leftEye.x) - (rightEye.x - center.x)| * 500)

/-- The record passed to `setStats` (source lines 66-72), given the seven
landmarks read at indices 61, 291, 13, 14, 33, 263 and 1. -/
noncomputable def computeStats (leftMouth rightMouth topLip bottomLip leftEye rightEye center : Landmark) : Stats :=
  { perfection := ⌊symmetryScore leftEye rightEye center * 0.7 + smileValue leftMouth rightMouth topLip bottomLip * 0.3⌋
    symmetry := ⌊symmetryScore leftEye rightEye center⌋
    status := if smileValue leftMouth rightMouth topLip bottomLip > 15 then "Radiant" else "Neutral"
    emotion :=
      if smileValue leftMouth rightMouth topLip bottomLip > 15 then "Happy"
      else if smileValue leftMouth rightMouth topLip bottomLip < 5 then "Sad/Focused"
      else "Neutral"
    smileLevel := ⌊smileValue leftMouth rightMouth topLip bottomLip⌋ }

/-- Observable outcome of one `onResults` invocation. -/
inductive Outcome where
  | updated (s : Stats)
  | noFace
  | jsError
deriving DecidableEq

/-- The metric part of the `onResults` callback.  The guard
`results.multiFaceLandmarks && results.multiFaceLandmarks.length > 0`
becomes the `Option` match plus the length test; the seven array reads
`landmarks[61] ... landmarks[1]` yield `undefined` (`none`) out of range,
in which case the subsequent `.x` / `.y` property access raises a
`TypeError` (`jsError`) before `setStats` is ever reached. -/
noncomputable def onResults (multiFaceLandmarks : Option (List Landmark)) : Outcome :=
  match multiFaceLandmarks with
  | none => Outcome.noFace
  | some landmarks =>
    if landmarks.length > 0 then
      match landmarks[61]?, landmarks[291]?, landmarks[13]?, landmarks[14]?,
            landmarks[33]?, landmarks[263]?, landmarks[1]? with
      | some leftMouth, some rightMouth, some topLip, some bottomLip,
        some leftEye, some rightEye, some center =>
        Outcome.updated (computeStats leftMouth rightMouth topLip bottomLip leftEye rightEye center)
      | _, _, _, _, _, _, _ => Outcome.jsError
    else Outcome.noFace

/-- The React state after one callback: `setStats` replaces the record only
when the `updated` branch is reached; otherwise the previous record stays. -/
noncomputable def nextStats (multiFaceLandmarks : Option (List Landmark)) (prev : Stats) : Stats :=
  match onResults multiFaceLandmarks with
  | Outcome.updated s => s
  | Outcome.noFace => prev
  | Outcome.jsError => prev

/-- The clamp function in the words of the spec: `clamp(x, lo, hi)`. -/
noncomputable def specClamp (lo hi x : ℝ) : ℝ := max lo (min hi x)

/-! Concrete demonstration landmarks, taken from the spec scenarios:
mouth corners at (0.40, 0.60) and (0.60, 0.60), lip centers at
(0.50, 0.58) and (0.50, 0.62), eye corners at (0.30, 0.5) and (0.70, 0.5),
face center at (0.50, 0.5). -/

noncomputable def pLM : Landmark := ⟨0.40, 0.60⟩

noncomputable def pRM : Landmark := ⟨0.60, 0.60⟩

noncomputable def pTL : Landmark := ⟨0.50, 0.58⟩

noncomputable def pBL : Landmark := ⟨0.50, 0.62⟩

noncomputable def pLE : Landmark := ⟨0.30, 0.5⟩

noncomputable def pRE : Landmark := ⟨0.70, 0.5⟩

noncomputable def pC : Landmark := ⟨0.50, 0.5⟩

/-- Landmark `i` of the demonstration frame. -/
noncomputable def demoPoint (i : ℕ) : Landmark :=
  if i = 61 then pLM
  else if i = 291 then pRM
  else if i = 13 then pTL
  else if i = 14 then pBL
  else if i = 33 then pLE
  else if i = 263 then pRE
  else pC

/-- A full 292-entry landmark sequence realizing the spec's two concrete
scenarios at the seven indices the engine reads. -/
noncomputable def demoLms : List Landmark := (List.range 292).map demoPoint

/-- A second frame agreeing with `demoLms` at the seven read indices but
differing elsewhere (index 0 moved). -/
noncomputable def demoPointB (i : ℕ) : Landmark :=
  if i = 0 then ⟨0.11, 0.97⟩ else demoPoint i

/-- The variant landmark sequence built from `demoPointB`. -/
noncomputable def demoLmsB : List Landmark := (List.range 292).map demoPointB

/-- The stats computed on the demonstration frame. -/
noncomputable def demoStats : Stats := computeStats pLM pRM pTL pBL pLE pRE pC

/-! ### Basic lemmas -/

lemma getElem?_demoLms (i : ℕ) (h : i < 292) : demoLms[i]? = some (demoPoint i) := by
  simp [demoLms, List.getElem?_range, h]

lemma getElem?_demoLmsB (i : ℕ) (h : i < 292) : demoLmsB[i]? = some (demoPointB i) := by
  simp [demoLmsB, List.getElem?_range, h]

/-- Bridge: when the seven indices are present, `onResults` reaches
`setStats` with exactly the record built from those seven landmarks. -/
lemma onResults_eq_updated (lms : List Landmark)
    (lM rM tL bL lE rE c : Landmark)
    (h61 : lms[61]? = some lM) (h291 : lms[291]? = some rM)
    (h13 : lms[13]? = some tL) (h14 : lms[14]? = some bL)
    (h33 : lms[33]? = some lE) (h263 : lms[263]? = some rE)
    (h1 : lms[1]? = some c) :
    onResults (some lms) = Outcome.updated (computeStats lM rM tL bL lE rE c) := by
  have hlen : lms.length > 0 := by
    rcases lms with _ | ⟨a, l⟩
    · simp at h61
    · simp
  simp only [onResults]
  rw [if_pos hlen, h61, h291, h13, h14, h33, h263, h1]

/-- Mouth-scenario evaluation: width 0.20, opening 0.04, raw signal 0.26,
scaled and clamped to 52. -/
lemma demo_smileValue : smileValue pLM pRM pTL pBL = 52 := by
  have hw : Real.sqrt ((pRM.x - pLM.x) ^ 2 + (pRM.y - pLM.y) ^ 2) = 0.2 := by
    rw [show (pRM.x - pLM.x) ^ 2 + (pRM.y - pLM.y) ^ 2 = (0.2 : ℝ) ^ 2 by
      simp only [pRM, pLM]; norm_num]
    exact Real.sqrt_sq (by norm_num)
  have hh : Real.sqrt ((pBL.y - pTL.y) ^ 2) = 0.04 := by
    rw [show (pBL.y - pTL.y) ^ 2 = (0.04 : ℝ) ^ 2 by simp only [pBL, pTL]; norm_num]
    exact Real.sqrt_sq (by norm_num)
  simp only [smileValue]
  rw [hw, hh, show ((0.2 : ℝ) * 1.5 - 0.04) * 200 = 52 by norm_num,
    max_eq_right (by norm_num : (0 : ℝ) ≤ 52), min_eq_right (by norm_num : (52 : ℝ) ≤ 100)]

/-- Eye-scenario evaluation: dLeft = dRight = 0.20, asymmetry 0, score 100. -/
lemma demo_symmetryScore : symmetryScore pLE pRE pC = 100 := by
  simp only [symmetryScore]
  rw [show (pC.x - pLE.x) - (pRE.x - pC.x) = (0 : ℝ) by simp only [pC, pLE, pRE]; norm_num]
  rw [abs_zero]
  norm_num

/-- Full evaluation of the stats on the demonstration frame. -/
lemma demoStats_eval :
    demoStats = { perfection := 85, symmetry := 100, status := "Radiant",
                  emotion := "Happy", smileLevel := 52 } := by
  simp only [demoStats, computeStats, demo_smileValue, demo_symmetryScore]
  have h85 : ⌊(100 : ℝ) * 0.7 + 52 * 0.3⌋ = 85 := by
    rw [show (100 : ℝ) * 0.7 + 52 * 0.3 = 85.6 by norm_num, Int.floor_eq_iff]
    norm_num
  have h100 : ⌊(100 : ℝ)⌋ = 100 := by norm_num
  have h52 : ⌊(52 : ℝ)⌋ = 52 := by norm_num
  rw [h85, h100, h52, if_pos (by norm_num : (15 : ℝ) < 52), if_pos (by norm_num : (15 : ℝ) < 52)]

/-- The demonstration frame reaches `setStats` with `demoStats`. -/
lemma onResults_demo : onResults (some demoLms) = Outcome.updated demoStats := by
  apply onResults_eq_updated
  all_goals
    rw [getElem?_demoLms _ (by norm_num)]
    simp [demoPoint]

/-- The variant frame reaches `setStats` with the same `demoStats`. -/
lemma onResults_demoB : onResults (some demoLmsB) = Outcome.updated demoStats := by
  apply onResults_eq_updated
  all_goals
    rw [getElem?_demoLmsB _ (by norm_num)]
    simp [demoPointB, demoPoint]

/-! ### Bounds -/

lemma smileValue_nonneg (lM rM tL bL : Landmark) : 0 ≤ smileValue lM rM tL bL :=
  le_min (by norm_num) (le_max_left _ _)

lemma smileValue_le_100 (lM rM tL bL : Landmark) : smileValue lM rM tL bL ≤ 100 :=
  min_le_left _ _

lemma symmetryScore_nonneg (lE rE c : Landmark) : 0 ≤ symmetryScore lE rE c :=
  le_max_left _ _

lemma symmetryScore_le_100 (lE rE c : Landmark) : symmetryScore lE rE c ≤ 100 := by
  apply max_le (by norm_num)
  have : 0 ≤ |(c.x - lE.x) - (rE.x - c.x)| * 500 :=
    mul_nonneg (abs_nonneg _) (by norm_num)
  linarith

lemma computeStats_bounds (lM rM tL bL lE rE c : Landmark) :
    0 ≤ (computeStats lM rM tL bL lE rE c).perfection ∧
    (computeStats lM rM tL bL lE rE c).perfection ≤ 100 ∧
    0 ≤ (computeStats lM rM tL bL lE rE c).symmetry ∧
    (computeStats lM rM tL bL lE rE c).symmetry ≤ 100 ∧
    0 ≤ (computeStats lM rM tL bL lE rE c).smileLevel ∧
    (computeStats lM rM tL bL lE rE c).smileLevel ≤ 100 ∧
    ((computeStats lM rM tL bL lE rE c).status = "Radiant" ∨
      (computeStats lM rM tL bL lE rE c).status = "Neutral") ∧
    ((computeStats lM rM tL bL lE rE c).emotion = "Happy" ∨
      (computeStats lM rM tL bL lE rE c).emotion = "Neutral" ∨
      (computeStats lM rM tL bL lE rE c).emotion = "Sad/Focused") := by
  have hv0 := smileValue_nonneg lM rM tL bL
  have hv1 := smileValue_le_100 lM rM tL bL
  have hs0 := symmetryScore_nonneg lE rE c
  have hs1 := symmetryScore_le_100 lE rE c
  simp only [computeStats]
  refine ⟨?_, ?_, ?_, ?_, ?_, ?_, ?_, ?_⟩
  · exact Int.floor_nonneg.mpr (by linarith)
  · have hle : symmetryScore lE rE c * 0.7 + smileValue lM rM tL bL * 0.3 ≤ 100 := by
      linarith
    have hfl := Int.floor_le (symmetryScore lE rE c * 0.7 + smileValue lM rM tL bL * 0.3)
    exact_mod_cast hfl.trans hle
  · exact Int.floor_nonneg.mpr hs0
  · have hfl := (Int.floor_le (symmetryScore lE rE c)).trans hs1
    exact_mod_cast hfl
  · exact Int.floor_nonneg.mpr hv0
  · have hfl := (Int.floor_le (smileValue lM rM tL bL)).trans hv1
    exact_mod_cast hfl
  · split_ifs <;> simp
  · split_ifs <;> simp

/-! ### Claims -/

/-- Claim C1: the claim states that a non-empty landmark sequence shorter
than 292 entries yields the NoFace outcome and never raises.  The code
disagrees: for the one-element sequence `[(0.5, 0.5)]` the guard
`landmarks.length > 0` passes, `landmarks[291]` is `undefined`, and the
property read `rightMouth.x` raises a `TypeError`; the outcome is
`jsError`, not `noFace`. -/
theorem c1_short_input_raises :
    onResults (some [⟨0.5, 0.5⟩]) = Outcome.jsError ∧
      Outcome.jsError ≠ Outcome.noFace := by
  refine ⟨rfl, fun hcontra => Outcome.noConfusion hcontra⟩

/-- Claim C2: whenever the seven required indices are present, a result is
produced and every numeric field is an integer in [0, 100], while `status`
and `emotion` take values in their enumerated string domains. -/
theorem c2_fields_bounded (lms : List Landmark) (lM rM tL bL lE rE c : Landmark)
    (g61 : lms[61]? = some lM) (g291 : lms[291]? = some rM)
    (g13 : lms[13]? = some tL) (g14 : lms[14]? = some bL)
    (g33 : lms[33]? = some lE) (g263 : lms[263]? = some rE)
    (g1 : lms[1]? = some c) :
    ∃ s : Stats, onResults (some lms) = Outcome.updated s ∧
      0 ≤ s.perfection ∧ s.perfection ≤ 100 ∧
      0 ≤ s.symmetry ∧ s.symmetry ≤ 100 ∧
      0 ≤ s.smileLevel ∧ s.smileLevel ≤ 100 ∧
      (s.status = "Radiant" ∨ s.status = "Neutral") ∧
      (s.emotion = "Happy" ∨ s.emotion = "Neutral" ∨ s.emotion = "Sad/Focused") :=
  ⟨computeStats lM rM tL bL lE rE c,
    onResults_eq_updated lms lM rM tL bL lE rE c g61 g291 g13 g14 g33 g263 g1,
    computeStats_bounds lM rM tL bL lE rE c⟩

/-- Claim C2 witness: the bounds instantiated on the demonstration frame. -/
theorem c2_fields_bounded_witness :
    ∃ s : Stats, onResults (some demoLms) = Outcome.updated s ∧
      0 ≤ s.perfection ∧ s.perfection ≤ 100 ∧
      0 ≤ s.symmetry ∧ s.symmetry ≤ 100 ∧
      0 ≤ s.smileLevel ∧ s.smileLevel ≤ 100 ∧
      (s.status = "Radiant" ∨ s.status = "Neutral") ∧
      (s.emotion = "Happy" ∨ s.emotion = "Neutral" ∨ s.emotion = "Sad/Focused") :=
  c2_fields_bounded demoLms pLM pRM pTL pBL pLE pRE pC
    (by rw [getElem?_demoLms 61 (by norm_num)]; simp [demoPoint])
    (by rw [getElem?_demoLms 291 (by norm_num)]; simp [demoPoint])
    (by rw [getElem?_demoLms 13 (by norm_num)]; simp [demoPoint])
    (by rw [getElem?_demoLms 14 (by norm_num)]; simp [demoPoint])
    (by rw [getElem?_demoLms 33 (by norm_num)]; simp [demoPoint])
    (by rw [getElem?_demoLms 263 (by norm_num)]; simp [demoPoint])
    (by rw [getElem?_demoLms 1 (by norm_num)]; simp [demoPoint])

/-- Claim C4: the source's one-sided `Math.max(0, 100 - a * 500)` coincides
with the spec's two-sided `clamp(100 - a * 500, 0, 100)` for all inputs,
because `a = |dLeft - dRight| ≥ 0` already forces the score below 100. -/
theorem c4_symmetry_clamp_refinement (lE rE c : Landmark) :
    symmetryScore lE rE c =
      specClamp 0 100 (100 - |(c.x - lE.x) - (rE.x - c.x)| * 500) := by
  simp only [symmetryScore, specClamp]
  rw [min_eq_right]
  have h : 0 ≤ |(c.x - lE.x) - (rE.x - c.x)| * 500 :=
    mul_nonneg (abs_nonneg _) (by norm_num)
  linarith

/-- Claim C4 witness: the coincidence instantiated on the spec's eye and
center points. -/
theorem c4_symmetry_clamp_refinement_witness :
    symmetryScore pLE pRE pC =
      specClamp 0 100 (100 - |(pC.x - pLE.x) - (pRE.x - pC.x)| * 500) :=
  c4_symmetry_clamp_refinement pLE pRE pC

/-- Claim C5: `status` is Radiant exactly when the smile value is strictly
above 15 (Neutral otherwise); `emotion` is Happy above 15, Sad/Focused
strictly below 5 and Neutral in between; the boundary values 15 and 5
fall in the Neutral bands. -/
theorem c5_thresholds (lms : List Landmark) (s : Stats) (lM rM tL bL lE rE c : Landmark)
    (g61 : lms[61]? = some lM) (g291 : lms[291]? = some rM)
    (g13 : lms[13]? = some tL) (g14 : lms[14]? = some bL)
    (g33 : lms[33]? = some lE) (g263 : lms[263]? = some rE)
    (g1 : lms[1]? = some c)
    (hres : onResults (some lms) = Outcome.updated s) :
    (15 < smileValue lM rM tL bL → s.status = "Radiant" ∧ s.emotion = "Happy") ∧
    (smileValue lM rM tL bL ≤ 15 → s.status = "Neutral") ∧
    (smileValue lM rM tL bL < 5 → s.emotion = "Sad/Focused") ∧
    (5 ≤ smileValue lM rM tL bL → smileValue lM rM tL bL ≤ 15 →
      s.emotion = "Neutral") ∧
    (smileValue lM rM tL bL = 15 → s.status = "Neutral" ∧ s.emotion = "Neutral") ∧
    (smileValue lM rM tL bL = 5 → s.emotion = "Neutral") := by
  have hbr := onResults_eq_updated lms lM rM tL bL lE rE c g61 g291 g13 g14 g33 g263 g1
  have hs : s = computeStats lM rM tL bL lE rE c :=
    Outcome.updated.inj (hres.symm.trans hbr)
  subst hs
  simp only [computeStats]
  refine ⟨fun h => ?_, fun h => ?_, fun h => ?_, fun h5 h15 => ?_,
    fun he => ?_, fun he => ?_⟩
  · rw [if_pos h, if_pos h]
    exact ⟨rfl, rfl⟩
  · rw [if_neg (not_lt.mpr h)]
  · rw [if_neg (not_lt.mpr (by linarith)), if_pos h]
  · rw [if_neg (not_lt.mpr h15), if_neg (not_lt.mpr h5)]
  · constructor
    · rw [if_neg (not_lt.mpr (le_of_eq he))]
    · rw [if_neg (not_lt.mpr (le_of_eq he)),
        if_neg (not_lt.mpr (by rw [he]; norm_num))]
  · rw [if_neg (not_lt.mpr (by rw [he]; norm_num)),
      if_neg (not_lt.mpr (le_of_eq he.symm))]

/-- Claim C5 witness: the threshold characterization instantiated on the
demonstration frame, whose smile value is 52. -/
theorem c5_thresholds_witness :
    (15 < smileValue pLM pRM pTL pBL →
      demoStats.status = "Radiant" ∧ demoStats.emotion = "Happy") ∧
    (smileValue pLM pRM pTL pBL ≤ 15 → demoStats.status = "Neutral") ∧
    (smileValue pLM pRM pTL pBL < 5 → demoStats.emotion = "Sad/Focused") ∧
    (5 ≤ smileValue pLM pRM pTL pBL → smileValue pLM pRM pTL pBL ≤ 15 →
      demoStats.emotion = "Neutral") ∧
    (smileValue pLM pRM pTL pBL = 15 →
      demoStats.status = "Neutral" ∧ demoStats.emotion = "Neutral") ∧
    (smileValue pLM pRM pTL pBL = 5 → demoStats.emotion = "Neutral") :=
  c5_thresholds demoLms demoStats pLM pRM pTL pBL pLE pRE pC
    (by rw [getElem?_demoLms 61 (by norm_num)]; simp [demoPoint])
    (by rw [getElem?_demoLms 291 (by norm_num)]; simp [demoPoint])
    (by rw [getElem?_demoLms 13 (by norm_num)]; simp [demoPoint])
    (by rw [getElem?_demoLms 14 (by norm_num)]; simp [demoPoint])
    (by rw [getElem?_demoLms 33 (by norm_num)]; simp [demoPoint])
    (by rw [getElem?_demoLms 263 (by norm_num)]; simp [demoPoint])
    (by rw [getElem?_demoLms 1 (by norm_num)]; simp [demoPoint])
    onResults_demo

/-- Claim C6: the perfection field is the floor of the fixed weighted blend
`symmetryScore * 0.7 + smileValue * 0.3`, and a symmetry score of 100
combined with a smile value of 52 yields perfection 85 = floor(85.6). -/
theorem c6_perfection_blend :
    (∀ lM rM tL bL lE rE c : Landmark,
        (computeStats lM rM tL bL lE rE c).perfection =
          ⌊symmetryScore lE rE c * 0.7 + smileValue lM rM tL bL * 0.3⌋) ∧
    (∀ lM rM tL bL lE rE c : Landmark,
        symmetryScore lE rE c = 100 → smileValue lM rM tL bL = 52 →
        (computeStats lM rM tL bL lE rE c).perfection = 85) := by
  constructor
  · intro lM rM tL bL lE rE c
    rfl
  · intro lM rM tL bL lE rE c hs hv
    simp only [computeStats, hs, hv]
    rw [show (100 : ℝ) * 0.7 + 52 * 0.3 = 85.6 by norm_num, Int.floor_eq_iff]
    norm_num

/-- Claim C6 witness: the blend and the value 85 on the demonstration
landmarks, where the symmetry score is 100 and the smile value is 52. -/
theorem c6_perfection_blend_witness :
    (computeStats pLM pRM pTL pBL pLE pRE pC).perfection =
      ⌊symmetryScore pLE pRE pC * 0.7 + smileValue pLM pRM pTL pBL * 0.3⌋ ∧
    (computeStats pLM pRM pTL pBL pLE pRE pC).perfection = 85 :=
  ⟨c6_perfection_blend.1 pLM pRM pTL pBL pLE pRE pC,
    c6_perfection_blend.2 pLM pRM pTL pBL pLE pRE pC demo_symmetryScore demo_smileValue⟩

/-- Claim C7: if the two eye landmarks are horizontally equidistant from
the center landmark, the reported symmetry field is exactly 100. -/
theorem c7_equidistant_symmetry (lms : List Landmark) (lM rM tL bL lE rE c : Landmark)
    (g61 : lms[61]? = some lM) (g291 : lms[291]? = some rM)
    (g13 : lms[13]? = some tL) (g14 : lms[14]? = some bL)
    (g33 : lms[33]? = some lE) (g263 : lms[263]? = some rE)
    (g1 : lms[1]? = some c)
    (heq : c.x - lE.x = rE.x - c.x) :
    ∃ s : Stats, onResults (some lms) = Outcome.updated s ∧ s.symmetry = 100 := by
  refine ⟨computeStats lM rM tL bL lE rE c,
    onResults_eq_updated lms lM rM tL bL lE rE c g61 g291 g13 g14 g33 g263 g1, ?_⟩
  simp only [computeStats, symmetryScore]
  have h0 : max (0 : ℝ) (100 - |(c.x - lE.x) - (rE.x - c.x)| * 500) = 100 := by
    rw [show (c.x - lE.x) - (rE.x - c.x) = 0 by linarith, abs_zero]
    norm_num
  rw [h0]
  norm_num

/-- Claim C7 witness: the spec's eye scenario, eyes at x = 0.30 and 0.70
around the center at x = 0.50. -/
theorem c7_equidistant_symmetry_witness :
    ∃ s : Stats, onResults (some demoLms) = Outcome.updated s ∧ s.symmetry = 100 :=
  c7_equidistant_symmetry demoLms pLM pRM pTL pBL pLE pRE pC
    (by rw [getElem?_demoLms 61 (by norm_num)]; simp [demoPoint])
    (by rw [getElem?_demoLms 291 (by norm_num)]; simp [demoPoint])
    (by rw [getElem?_demoLms 13 (by norm_num)]; simp [demoPoint])
    (by rw [getElem?_demoLms 14 (by norm_num)]; simp [demoPoint])
    (by rw [getElem?_demoLms 33 (by norm_num)]; simp [demoPoint])
    (by rw [getElem?_demoLms 263 (by norm_num)]; simp [demoPoint])
    (by rw [getElem?_demoLms 1 (by norm_num)]; simp [demoPoint])
    (by simp only [pC, pLE, pRE]; norm_num)

/-- Claim C8: a frame with an absent or empty landmark set yields the
NoFace outcome (no new scores) and leaves every field of the previously
displayed stats record untouched. -/
theorem c8_no_face_preserves_state (prev : Stats) :
    onResults none = Outcome.noFace ∧
    onResults (some []) = Outcome.noFace ∧
    nextStats none prev = prev ∧
    nextStats (some []) prev = prev :=
  ⟨rfl, rfl, rfl, rfl⟩

/-- Claim C8 witness: the preservation instantiated on the initial
"Analyzing..." state. -/
theorem c8_no_face_preserves_state_witness :
    onResults none = Outcome.noFace ∧
    onResults (some []) = Outcome.noFace ∧
    nextStats none initialStats = initialStats ∧
    nextStats (some []) initialStats = initialStats :=
  c8_no_face_preserves_state initialStats

/-- Claim C9: the computation is deterministic — two invocations on equal
landmark inputs produce records agreeing in all five fields. -/
theorem c9_deterministic (mf₁ mf₂ : Option (List Landmark)) (h : mf₁ = mf₂)
    (s₁ s₂ : Stats) (h₁ : onResults mf₁ = Outcome.updated s₁)
    (h₂ : onResults mf₂ = Outcome.updated s₂) :
    s₁.perfection = s₂.perfection ∧ s₁.symmetry = s₂.symmetry ∧
    s₁.smileLevel = s₂.smileLevel ∧ s₁.status = s₂.status ∧
    s₁.emotion = s₂.emotion := by
  subst h
  have hs : s₁ = s₂ := Outcome.updated.inj (h₁.symm.trans h₂)
  subst hs
  exact ⟨rfl, rfl, rfl, rfl, rfl⟩

/-- Claim C9 witness: two invocations on the demonstration frame. -/
theorem c9_deterministic_witness :
    demoStats.perfection = demoStats.perfection ∧
    demoStats.symmetry = demoStats.symmetry ∧
    demoStats.smileLevel = demoStats.smileLevel ∧
    demoStats.status = demoStats.status ∧
    demoStats.emotion = demoStats.emotion :=
  c9_deterministic (some demoLms) (some demoLms) rfl demoStats demoStats
    onResults_demo onResults_demo

/-- Claim C10 (implicit): the five output fields depend only on the
landmarks at indices 1, 13, 14, 33, 61, 263 and 291 — two sequences that
agree there produce identical results, whatever the other entries hold. -/
theorem c10_seven_indices_determine (lms₁ lms₂ : List Landmark)
    (lM rM tL bL lE rE c : Landmark)
    (a61 : lms₁[61]? = some lM) (b61 : lms₂[61]? = some lM)
    (a291 : lms₁[291]? = some rM) (b291 : lms₂[291]? = some rM)
    (a13 : lms₁[13]? = some tL) (b13 : lms₂[13]? = some tL)
    (a14 : lms₁[14]? = some bL) (b14 : lms₂[14]? = some bL)
    (a33 : lms₁[33]? = some lE) (b33 : lms₂[33]? = some lE)
    (a263 : lms₁[263]? = some rE) (b263 : lms₂[263]? = some rE)
    (a1 : lms₁[1]? = some c) (b1 : lms₂[1]? = some c)
    (s₁ s₂ : Stats)
    (h₁ : onResults (some lms₁) = Outcome.updated s₁)
    (h₂ : onResults (some lms₂) = Outcome.updated s₂) :
    s₁.perfection = s₂.perfection ∧ s₁.symmetry = s₂.symmetry ∧
    s₁.smileLevel = s₂.smileLevel ∧ s₁.status = s₂.status ∧
    s₁.emotion = s₂.emotion := by
  have e₁ := onResults_eq_updated lms₁ lM rM tL bL lE rE c a61 a291 a13 a14 a33 a263 a1
  have e₂ := onResults_eq_updated lms₂ lM rM tL bL lE rE c b61 b291 b13 b14 b33 b263 b1
  have hs₁ : s₁ = computeStats lM rM tL bL lE rE c :=
    Outcome.updated.inj (h₁.symm.trans e₁)
  have hs₂ : s₂ = computeStats lM rM tL bL lE rE c :=
    Outcome.updated.inj (h₂.symm.trans e₂)
  subst hs₁
  subst hs₂
  exact ⟨rfl, rfl, rfl, rfl, rfl⟩

/-- Claim C10 witness: the demonstration frame and its variant with a
different landmark at index 0 produce the same record. -/
theorem c10_seven_indices_determine_witness :
    demoStats.perfection = demoStats.perfection ∧
    demoStats.symmetry = demoStats.symmetry ∧
    demoStats.smileLevel = demoStats.smileLevel ∧
    demoStats.status = demoStats.status ∧
    demoStats.emotion = demoStats.emotion :=
  c10_seven_indices_determine demoLms demoLmsB pLM pRM pTL pBL pLE pRE pC
    (by rw [getElem?_demoLms 61 (by norm_num)]; simp [demoPoint])
    (by rw [getElem?_demoLmsB 61 (by norm_num)]; simp [demoPointB, demoPoint])
    (by rw [getElem?_demoLms 291 (by norm_num)]; simp [demoPoint])
    (by rw [getElem?_demoLmsB 291 (by norm_num)]; simp [demoPointB, demoPoint])
    (by rw [getElem?_demoLms 13 (by norm_num)]; simp [demoPoint])
    (by rw [getElem?_demoLmsB 13 (by norm_num)]; simp [demoPointB, demoPoint])
    (by rw [getElem?_demoLms 14 (by norm_num)]; simp [demoPoint])
    (by rw [getElem?_demoLmsB 14 (by norm_num)]; simp [demoPointB, demoPoint])
    (by rw [getElem?_demoLms 33 (by norm_num)]; simp [demoPoint])
    (by rw [getElem?_demoLmsB 33 (by norm_num)]; simp [demoPointB, demoPoint])
    (by rw [getElem?_demoLms 263 (by norm_num)]; simp [demoPoint])
    (by rw [getElem?_demoLmsB 263 (by norm_num)]; simp [demoPointB, demoPoint])
    (by rw [getElem?_demoLms 1 (by norm_num)]; simp [demoPoint])
    (by rw [getElem?_demoLmsB 1 (by norm_num)]; simp [demoPointB, demoPoint])
    demoStats demoStats onResults_demo onResults_demoB
